import Mathlib

/-
Verification development for the UA4F SOCKS5 proxy (Rust sources:
src/main.rs, src/http.rs, src/utils.rs, src/utils/logger.rs).

Buffers are modelled as lists of natural numbers (byte values); index
arithmetic uses Nat.  Every definition in the first part of the file is a
shallow embedding of a function of the Rust source, translated clause by
clause; the one definition written from the specification text instead of
the source is marked as such in its doc comment.  Rust boolean operators
are modelled by Bool operations, Rust if/match guards by if-chains in
source order.
-/

namespace UA4F

/-! ## Byte-buffer search primitives

The Rust slice primitive buf.windows(n).position(pred) for the predicate
"window equals pat" returns the first index i with buf[i..i+n] = pat, and
None when no window matches (in particular when buf.len() < n).  Both call
sites in src/http.rs use a non-empty pattern. -/

/-- First index at which pat occurs as a contiguous sub-list of buf:
the model of buf.windows(pat.len()).position(|w| w == pat) for a
non-empty pat. -/
def findSubIdx (pat : List Nat) : List Nat → Option Nat
  | [] => none
  | b :: rest =>
    if pat.isPrefixOf (b :: rest) then some 0
    else (findSubIdx pat rest).map (· + 1)

/-- Model of str::contains (substring test) for a non-empty pattern. -/
def listContains (hay pat : List Nat) : Bool := (findSubIdx pat hay).isSome

/-! ## src/http.rs -/

/-- Embedding of is_http_request (src/http.rs lines 4-25).  The source
matches on buf[0] and compares the following bytes of the method token,
arm by arm, in the order GET, POS(T), HEAD, DELETE, TRACE, OPTIONS,
CONNECT, PUT, PATCH; each arm repeats the length guard of the source.
Byte constants: G=71 E=69 T=84 P=80 O=79 S=83 H=72 A=65 D=68 L=76 R=82
C=67 I=73 N=78 U=85. -/
def is_http_request (buf : List Nat) : Bool :=
  if buf.length < 3 then false
  else if buf.getD 0 0 == 71 && decide (3 ≤ buf.length) && buf.getD 1 0 == 69 &&
      buf.getD 2 0 == 84 then true -- GET
  else if buf.getD 0 0 == 80 && decide (3 ≤ buf.length) && buf.getD 1 0 == 79 &&
      buf.getD 2 0 == 83 then
    (if decide (4 ≤ buf.length) && buf.getD 3 0 == 84 then true else false) -- POST
  else if buf.getD 0 0 == 72 && decide (4 ≤ buf.length) && buf.getD 1 0 == 69 &&
      buf.getD 2 0 == 65 && buf.getD 3 0 == 68 then true -- HEAD
  else if buf.getD 0 0 == 68 && decide (6 ≤ buf.length) && buf.getD 1 0 == 69 &&
      buf.getD 2 0 == 76 && buf.getD 3 0 == 69 && buf.getD 4 0 == 84 &&
      buf.getD 5 0 == 69 then true -- DELETE
  else if buf.getD 0 0 == 84 && decide (5 ≤ buf.length) && buf.getD 1 0 == 82 &&
      buf.getD 2 0 == 65 && buf.getD 3 0 == 67 && buf.getD 4 0 == 69 then true -- TRACE
  else if buf.getD 0 0 == 79 && decide (7 ≤ buf.length) && buf.getD 1 0 == 80 &&
      buf.getD 2 0 == 84 && buf.getD 3 0 == 73 && buf.getD 4 0 == 79 &&
      buf.getD 5 0 == 78 && buf.getD 6 0 == 83 then true -- OPTIONS
  else if buf.getD 0 0 == 67 && decide (7 ≤ buf.length) && buf.getD 1 0 == 79 &&
      buf.getD 2 0 == 78 && buf.getD 3 0 == 78 && buf.getD 4 0 == 69 &&
      buf.getD 5 0 == 67 && buf.getD 6 0 == 84 then true -- CONNECT
  else if buf.getD 0 0 == 80 && decide (3 ≤ buf.length) && buf.getD 1 0 == 85 &&
      buf.getD 2 0 == 84 then true -- PUT
  else if buf.getD 0 0 == 80 && decide (5 ≤ buf.length) && buf.getD 1 0 == 65 &&
      buf.getD 2 0 == 84 && buf.getD 3 0 == 67 && buf.getD 4 0 == 72 then true -- PATCH
  else false

/-- The nine HTTP method tokens of src/http.rs as byte lists:
GET, POST, HEAD, DELETE, TRACE, OPTIONS, CONNECT, PUT, PATCH. -/
def methodTokens : List (List Nat) :=
  [[71, 69, 84], [80, 79, 83, 84], [72, 69, 65, 68], [68, 69, 76, 69, 84, 69],
   [84, 82, 65, 67, 69], [79, 80, 84, 73, 79, 78, 83], [67, 79, 78, 78, 69, 67, 84],
   [80, 85, 84], [80, 65, 84, 67, 72]]

/-- Bytes of the literal b"User-Agent: " searched for by modify_user_agent
(src/http.rs line 28). -/
def UA_TARGET : List Nat := [85, 115, 101, 114, 45, 65, 103, 101, 110, 116, 58, 32]

/-- Bytes of the value-terminator b"\r\n" (src/http.rs line 42). -/
def CRLF : List Nat := [13, 10]

/-- Bytes of the whitelist entry "micromessenger client"
(src/http.rs line 62). -/
def MICROMESSENGER : List Nat :=
  [109, 105, 99, 114, 111, 109, 101, 115, 115, 101, 110, 103, 101, 114, 32,
   99, 108, 105, 101, 110, 116]

/-- Bytes of the whitelist entry "bilibili" (src/http.rs line 62). -/
def BILIBILI : List Nat := [98, 105, 108, 105, 98, 105, 108, 105]

/-- The fixed whitelist of src/http.rs line 62. -/
def WHITELIST : List (List Nat) := [MICROMESSENGER, BILIBILI]

/-- A UTF-8 continuation byte (10xxxxxx). -/
def utf8Cont (b : Nat) : Bool := decide (128 ≤ b ∧ b ≤ 191)

/-- Validity of a byte list as UTF-8 with a step-count bound (the bound is
instantiated with the list length, which the recursion never exhausts:
every step consumes at least one byte).  Arms follow the RFC 3629
well-formedness table, which is what the Rust validator accepts: two-byte
leads C2-DF, three-byte leads E0/E1-EC/ED/EE-EF with their
first-continuation restrictions, four-byte leads F0/F1-F3/F4 with
theirs. -/
def utf8ValidFuel : Nat → List Nat → Bool
  | _, [] => true
  | 0, _ :: _ => false
  | fuel + 1, b :: rest =>
    if b < 128 then utf8ValidFuel fuel rest
    else if 194 ≤ b ∧ b ≤ 223 then
      decide (1 ≤ rest.length) && utf8Cont (rest.getD 0 0) &&
        utf8ValidFuel fuel (rest.drop 1)
    else if b = 224 then
      decide (2 ≤ rest.length) && decide (160 ≤ rest.getD 0 0 ∧ rest.getD 0 0 ≤ 191) &&
        utf8Cont (rest.getD 1 0) && utf8ValidFuel fuel (rest.drop 2)
    else if (225 ≤ b ∧ b ≤ 236) ∨ b = 238 ∨ b = 239 then
      decide (2 ≤ rest.length) && utf8Cont (rest.getD 0 0) &&
        utf8Cont (rest.getD 1 0) && utf8ValidFuel fuel (rest.drop 2)
    else if b = 237 then
      decide (2 ≤ rest.length) && decide (128 ≤ rest.getD 0 0 ∧ rest.getD 0 0 ≤ 159) &&
        utf8Cont (rest.getD 1 0) && utf8ValidFuel fuel (rest.drop 2)
    else if b = 240 then
      decide (3 ≤ rest.length) && decide (144 ≤ rest.getD 0 0 ∧ rest.getD 0 0 ≤ 191) &&
        utf8Cont (rest.getD 1 0) && utf8Cont (rest.getD 2 0) && utf8ValidFuel fuel (rest.drop 3)
    else if 241 ≤ b ∧ b ≤ 243 then
      decide (3 ≤ rest.length) && utf8Cont (rest.getD 0 0) && utf8Cont (rest.getD 1 0) &&
        utf8Cont (rest.getD 2 0) && utf8ValidFuel fuel (rest.drop 3)
    else if b = 244 then
      decide (3 ≤ rest.length) && decide (128 ≤ rest.getD 0 0 ∧ rest.getD 0 0 ≤ 143) &&
        utf8Cont (rest.getD 1 0) && utf8Cont (rest.getD 2 0) && utf8ValidFuel fuel (rest.drop 3)
    else false

/-- Validity of a byte list as UTF-8, the success condition of
std::str::from_utf8. -/
def utf8Valid (l : List Nat) : Bool := utf8ValidFuel l.length l

/-- Byte-level model of str::to_lowercase on one byte: ASCII letters A-Z
map to a-z, every other byte value is kept.  (For the ASCII inputs all
theorems below use, this coincides with the Rust per-char Unicode
lowercasing; non-ASCII codepoints with non-trivial lowercase mappings are
outside the scope of this embedding.) -/
def lowerByte (b : Nat) : Nat := if 65 ≤ b ∧ b ≤ 90 then b + 32 else b

/-- Embedding of check_is_in_whitelist (src/http.rs lines 61-66):
from_utf8(buf).unwrap_or("") keeps the bytes when they are valid UTF-8 and
otherwise yields the empty string; to_lowercase is modelled bytewise by
lowerByte; then any whitelist entry contained as a substring matches. -/
def check_is_in_whitelist (buf : List Nat) : Bool :=
  let s := if utf8Valid buf then buf.map lowerByte else []
  WHITELIST.any (fun item => listContains s item)

/-- Embedding of modify_user_agent (src/http.rs lines 27-58).  It locates
the first occurrence of "User-Agent: ", takes the span up to the following
"\r\n" (or to the end of the buffer when absent) as the header value,
returns the buffer unchanged when the header is absent or the value is
whitelisted, and otherwise splices the replacement into the value span
(Vec::splice: the bytes before start, then the replacement, then the bytes
from endPos on). -/
def modify_user_agent (buf : List Nat) (user_agent : List Nat) : List Nat :=
  let len := buf.length
  match findSubIdx UA_TARGET buf with
  | none => buf
  | some idx =>
    let start := idx + UA_TARGET.length
    let endPos :=
      match findSubIdx CRLF (buf.drop start) with
      | some p => start + p
      | none => len
    if check_is_in_whitelist ((buf.drop start).take (endPos - start)) then buf
    else buf.take start ++ user_agent ++ buf.drop endPos

/-! ## src/main.rs: the Connect data path -/

/-- Capacity of the sniff buffer vec![0; 4096] (src/main.rs line 298). -/
def BUF_CAP : Nat := 4096

/-- The sniff buffer after the reads of src/main.rs lines 299 and 311: the
first read deposits r1 at offset 0, the second deposits r2 at offset
r1.length, and the rest of the 4096-byte vector still holds its zero
fill.  (Vec reads do not change the length of the vector.) -/
def sniffAssembled (r1 r2 : List Nat) : List Nat :=
  r1 ++ r2 ++ List.replicate (BUF_CAP - (r1.length + r2.length)) 0

/-- The bytes written to the target on the HTTP path (src/main.rs lines
314-315): modify_user_agent runs on the full 4096-byte buffer, and then
write_all sends buf[..total_read] where total_read = initial_read +
additional_read was computed before the splice.  (When the splice shrinks
the buffer below total_read the source would panic on the slice; the
inputs used below stay inside the in-range regime, where List.take is the
exact model.) -/
def writtenHttp (r1 r2 ua : List Nat) : List Nat :=
  (modify_user_agent (sniffAssembled r1 r2) ua).take (r1.length + r2.length)

/-- Observable actions of the Connect data path of src/main.rs. -/
inductive ConnAction where
  | shutdownClient
  | shutdownTarget
  | sniff (isHttp : Bool)
  | readMore
  | writeTarget (bytes : List Nat)
  | flushTarget
  | copyBidirectional
deriving DecidableEq

/-- Embedding of the data phase of handle_tcp_connect after a successful
outbound connect and Succeeded reply (src/main.rs lines 298-328), as the
trace of actions it performs together with its Ok/Err outcome (true =
returns Ok; every path in this region returns Ok, since even a
copy_bidirectional error is only logged).  dest is the connect address:
the source uses it only to establish the connection, so the data phase
ignores it — there is no per-destination state to consult.  r1 is what
conn.read(&mut buf[..8]) returned, r2 what the second read returned. -/
def handle_tcp_connect_data (dest r1 r2 ua : List Nat) : List ConnAction × Bool :=
  if r1.length = 0 then ([.shutdownClient, .shutdownTarget], true)
  else
    let isHttp := is_http_request r1
    (ConnAction.sniff isHttp ::
      (if isHttp then
        [.readMore, .writeTarget (writtenHttp r1 r2 ua), .flushTarget, .copyBidirectional]
      else
        [.writeTarget r1, .flushTarget, .copyBidirectional]), true)

/-- Traces of a sequence of Connect connections handled one after the
other (src/main.rs lines 88-102 spawn an independent handler per accepted
connection; no state is shared between them, so the per-connection traces
are independent).  Each element of conns is (destination, first read,
second read). -/
def processConnections (ua : List Nat) (conns : List (List Nat × List Nat × List Nat)) :
    List (List ConnAction) :=
  conns.map (fun c => (handle_tcp_connect_data c.1 c.2.1 c.2.2 ua).1)

/-! ## src/main.rs: connect-phase reply selection -/

/-- Kinds of I/O error an outbound TcpStream::connect can produce.  The
distinction matters only to the claims; the source never inspects the
kind. -/
inductive IoErrorKind where
  | timedOut
  | connectionRefused
  | otherError
deriving DecidableEq

/-- The SOCKS5 reply codes this program produces. -/
inductive Reply where
  | succeeded
  | hostUnreachable
  | ttlExpired
  | commandNotSupported
  | addressTypeNotSupported
deriving DecidableEq

/-- Embedding of the reply selection of handle_tcp_connect (src/main.rs
lines 277-343): TcpStream::connect is awaited with no timeout wrapper;
on Ok the client is sent Succeeded (and no error is surfaced by this
phase), and on Err(e) — whatever the kind of e — the client is sent
HostUnreachable and Error::Io(e) is returned. -/
def connect_phase (outcome : Except IoErrorKind Unit) : Reply × Option IoErrorKind :=
  match outcome with
  | .ok _ => (.succeeded, none)
  | .error e => (.hostUnreachable, some e)

/-! ## src/main.rs: UDP associate packet codec -/

/-- IP addresses as used by the UDP codec. -/
inductive IpAddr where
  | v4 (a b c d : Nat)
  | v6 (octets : List Nat)
deriving DecidableEq

/-- A socket address: an IP address and a port. -/
structure SockAddr where
  ip : IpAddr
  port : Nat
deriving DecidableEq

/-- Big-endian bytes of a u16 port (u16::to_be_bytes / from_be_bytes). -/
def portBeBytes (p : Nat) : List Nat := [p % 65536 / 256, p % 256]

/-- Embedding of encapsulate_socks5_udp_packet (src/main.rs lines
247-275): the packet starts as the three bytes [0, 0, 0]; then
packet[2] = 0x01 (or 0x04 for IPv6) overwrites the third byte in place;
then the address octets, the big-endian port, and the payload are
appended. -/
def encapsulate_socks5_udp_packet (addr : SockAddr) (data : List Nat) : List Nat :=
  let hdr : List Nat := [0, 0, 0]
  match addr.ip with
  | .v4 a b c d => (hdr.set 2 1) ++ [a, b, c, d] ++ portBeBytes addr.port ++ data
  | .v6 o => (hdr.set 2 4) ++ o ++ portBeBytes addr.port ++ data

/-- Modelled from the spec: the SOCKS5 UDP reply framing the specification
prescribes, [RSV(2)=0x0000][FRAG(1)][ATYP(1)][DST.ADDR][DST.PORT][DATA]
with a four-byte prefix before the address, ATYP 0x01 for IPv4 and 0x04
for IPv6.  This is the claim-side definition C7 compares the source
against. -/
def spec_udp_reply_packet (addr : SockAddr) (data : List Nat) : List Nat :=
  match addr.ip with
  | .v4 a b c d => [0, 0, 0] ++ [1] ++ [a, b, c, d] ++ portBeBytes addr.port ++ data
  | .v6 o => [0, 0, 0] ++ [4] ++ o ++ portBeBytes addr.port ++ data

/-- Embedding of parse_socks5_udp_packet (src/main.rs lines 207-244):
reject packets shorter than 10 bytes or with a nonzero second byte; then
dispatch on the address-type byte packet[3]: 0x01 reads an IPv4 address
and big-endian port and returns the payload from offset 10; 0x03 reads a
domain length, ignores the domain bytes themselves (the address returned
is the unspecified IPv4 address 0.0.0.0 with the parsed port), checks the
length, and returns the payload after the port; every other type is
rejected. -/
def parse_socks5_udp_packet (packet : List Nat) : Option (SockAddr × List Nat) :=
  if packet.length < 10 ∨ packet.getD 1 0 ≠ 0 then none
  else
    match packet.getD 3 0 with
    | 1 =>
      if packet.length < 10 then none
      else
        some (⟨.v4 (packet.getD 4 0) (packet.getD 5 0) (packet.getD 6 0) (packet.getD 7 0),
               packet.getD 8 0 * 256 + packet.getD 9 0⟩, packet.drop 10)
    | 3 =>
      let domainLen := packet.getD 4 0
      if packet.length < 5 + domainLen + 2 then none
      else
        some (⟨.v4 0 0 0 0,
               packet.getD (5 + domainLen) 0 * 256 + packet.getD (6 + domainLen) 0⟩,
              packet.drop (5 + domainLen + 2))
    | _ => none

/-- A well-formed IPv4-typed SOCKS5 UDP request packet (used to state what
the parser accepts). -/
def mkV4UdpPacket (a b c d port : Nat) (payload : List Nat) : List Nat :=
  [0, 0, 0, 1, a, b, c, d, port / 256, port % 256] ++ payload

/-- A well-formed domain-typed SOCKS5 UDP request packet. -/
def mkDomainUdpPacket (domain : List Nat) (port : Nat) (payload : List Nat) : List Nat :=
  [0, 0, 0, 3, domain.length] ++ domain ++ [port / 256, port % 256] ++ payload

/-! ## src/main.rs: the UDP relay loop -/

/-- Input of one loop iteration of the UDP relay: what recv_from returned. -/
inductive UdpEvent where
  | recvOk (src : SockAddr) (datagram : List Nat)
  | recvErr
deriving DecidableEq

/-- Observable actions of the UDP relay loop. -/
inductive UdpAction where
  | logError
  | sendTo (dest : SockAddr) (payload : List Nat)
  | sendToClient (client : SockAddr) (packet : List Nat)
deriving DecidableEq

/-- Embedding of the loop body of handle_udp_traffic (src/main.rs lines
170-204) over a finite prefix of receive events: a successful receive
whose datagram parses is forwarded to the decoded target and a
re-encapsulated packet is sent back to the client address (sends are
modelled as succeeding; on a send error the source continues the loop
just as it does on success); a datagram that fails to parse produces no
action; a receive error is logged — and the loop then continues with the
next event, since the Err arm of the source only logs.  The loop has no other
exit. -/
def handle_udp_traffic (clientAddr : SockAddr) : List UdpEvent → List UdpAction
  | [] => []
  | .recvErr :: rest => .logError :: handle_udp_traffic clientAddr rest
  | .recvOk src dgram :: rest =>
    (match parse_socks5_udp_packet dgram with
     | none => []
     | some (target, data) =>
       [.sendTo target data,
        .sendToClient clientAddr (encapsulate_socks5_udp_packet src data)]) ++
    handle_udp_traffic clientAddr rest

/-- The failing input of C1: a first read of 8 bytes "GET / HT" and a
second read completing the request "GET / HTTP/1.1\r\nUser-Agent:
abc\r\n\r\n" (35 bytes in total). -/
def c1_first_read : List Nat := [71, 69, 84, 32, 47, 32, 72, 84]

/-- Continuation of the C1 failing input (see c1_first_read). -/
def c1_second_read : List Nat := [84, 80, 47, 49, 46, 49, 13, 10, 85, 115, 101, 114, 45, 65, 103, 101, 110, 116, 58, 32, 97, 98, 99, 13, 10, 13, 10]

/-- Byte form of the destination "example.com:443" used by the C6
statements. -/
def EXAMPLE_DEST : List Nat :=
  [101, 120, 97, 109, 112, 108, 101, 46, 99, 111, 109, 58, 52, 52, 51]

/-! ## Helper lemmas -/

theorem isPrefixOf_iff_exists_append (t l : List Nat) :
    t.isPrefixOf l = true ↔ ∃ w, t ++ w = l := by
  induction t generalizing l with
  | nil => simp [List.isPrefixOf]
  | cons a t ih =>
    cases l with
    | nil => simp [List.isPrefixOf]
    | cons b l =>
      rw [show (a :: t).isPrefixOf (b :: l) = ((a == b) && t.isPrefixOf l) from rfl]
      simp only [Bool.and_eq_true, beq_iff_eq, ih]
      constructor
      · rintro ⟨rfl, w, rfl⟩
        exact ⟨w, rfl⟩
      · rintro ⟨w, hw⟩
        injection hw with h1 h2
        exact ⟨h1, w, h2⟩

theorem isPrefixOf_append_self (t w : List Nat) : t.isPrefixOf (t ++ w) = true := by
  rw [isPrefixOf_iff_exists_append]
  exact ⟨w, rfl⟩

theorem findSubIdx_head_match (p : Nat) (ps y : List Nat)
    (h : (p :: ps).isPrefixOf y = true) : findSubIdx (p :: ps) y = some 0 := by
  cases y with
  | nil => simp [List.isPrefixOf] at h
  | cons b rest => simp [findSubIdx, h]

theorem findSubIdx_crlf_append (v w : List Nat) (h : ∀ b ∈ v, b ≠ 13) :
    findSubIdx CRLF (v ++ 13 :: 10 :: w) = some v.length := by
  induction v with
  | nil =>
    rw [List.nil_append]
    exact findSubIdx_head_match _ _ _ (by simp [CRLF, List.isPrefixOf])
  | cons b v ih =>
    have hb : b ≠ 13 := h b (by simp)
    have hpre : CRLF.isPrefixOf (b :: (v ++ 13 :: 10 :: w)) = false := by
      simp [CRLF, List.isPrefixOf]
      intro hcontr
      exact absurd hcontr.symm hb
    rw [List.cons_append]
    rw [show findSubIdx CRLF (b :: (v ++ 13 :: 10 :: w)) =
        if CRLF.isPrefixOf (b :: (v ++ 13 :: 10 :: w)) then some 0
        else (findSubIdx CRLF (v ++ 13 :: 10 :: w)).map (· + 1) from rfl]
    rw [hpre]
    simp only [Bool.false_eq_true, if_false]
    rw [ih (fun x hx => h x (by simp [hx]))]
    simp

theorem modify_user_agent_canonical (v ua : List Nat) (h13 : ∀ b ∈ v, b ≠ 13) :
    modify_user_agent (UA_TARGET ++ v ++ CRLF) ua =
      (if check_is_in_whitelist v then UA_TARGET ++ v ++ CRLF
       else UA_TARGET ++ ua ++ CRLF) := by
  have hfind : findSubIdx UA_TARGET (UA_TARGET ++ v ++ CRLF) = some 0 := by
    rw [List.append_assoc]
    exact findSubIdx_head_match 85 _ _ (isPrefixOf_append_self UA_TARGET (v ++ CRLF))
  have hdrop12 : (UA_TARGET ++ v ++ CRLF).drop UA_TARGET.length = v ++ CRLF := by
    rw [List.append_assoc]
    exact List.drop_left UA_TARGET (v ++ CRLF)
  have hcrlf : findSubIdx CRLF ((UA_TARGET ++ v ++ CRLF).drop UA_TARGET.length) =
      some v.length := by
    rw [hdrop12]
    rw [show v ++ CRLF = v ++ 13 :: 10 :: [] from rfl]
    exact findSubIdx_crlf_append v [] h13
  rw [modify_user_agent]
  rw [hfind]
  simp only [Nat.zero_add]
  rw [hcrlf]
  simp only [hdrop12]
  have hsub : (UA_TARGET.length + v.length) - UA_TARGET.length = v.length := by omega
  simp only [hsub]
  rw [List.take_left v CRLF]
  rw [List.append_assoc, List.take_left UA_TARGET (v ++ CRLF), ← List.append_assoc]
  rw [show UA_TARGET.length + v.length = (UA_TARGET ++ v).length from
    (List.length_append _ _).symm]
  rw [List.drop_left (UA_TARGET ++ v) CRLF]

theorem findSubIdx_isSome_mid (u w : List Nat) (p : Nat) (ps : List Nat) :
    (findSubIdx (p :: ps) (u ++ ((p :: ps) ++ w))).isSome = true := by
  induction u with
  | nil =>
    rw [List.nil_append]
    rw [findSubIdx_head_match p ps _ (isPrefixOf_append_self (p :: ps) w)]
    rfl
  | cons b u ih =>
    rw [List.cons_append]
    rw [show findSubIdx (p :: ps) (b :: (u ++ ((p :: ps) ++ w))) =
        if (p :: ps).isPrefixOf (b :: (u ++ ((p :: ps) ++ w))) then some 0
        else (findSubIdx (p :: ps) (u ++ ((p :: ps) ++ w))).map (· + 1) from rfl]
    split
    · rfl
    · simpa using ih

theorem findSubIdx_replicate_none (p : Nat) (ps : List Nat) (n a : Nat) (h : p ≠ a) :
    findSubIdx (p :: ps) (List.replicate n a) = none := by
  induction n with
  | zero => rfl
  | succ n ih =>
    rw [List.replicate_succ]
    rw [show findSubIdx (p :: ps) (a :: List.replicate n a) =
        if (p :: ps).isPrefixOf (a :: List.replicate n a) then some 0
        else (findSubIdx (p :: ps) (List.replicate n a)).map (· + 1) from rfl]
    have hnp : (p :: ps).isPrefixOf (a :: List.replicate n a) = false := by
      simp [List.isPrefixOf]
      intro hc
      exact absurd hc h
    rw [hnp]
    simp [ih]

theorem utf8Valid_cons_ascii (b : Nat) (rest : List Nat) (hb : b < 128) :
    utf8Valid (b :: rest) = utf8Valid rest := by
  show utf8ValidFuel (b :: rest).length (b :: rest) = utf8Valid rest
  rw [List.length_cons, utf8ValidFuel]
  rw [if_pos hb]
  rfl

theorem utf8Valid_of_ascii (l : List Nat) (h : ∀ b ∈ l, b < 128) : utf8Valid l = true := by
  induction l with
  | nil => rfl
  | cons b rest ih =>
    rw [utf8Valid_cons_ascii b rest (h b (by simp))]
    exact ih (fun x hx => h x (by simp [hx]))

theorem lowerByte_fixed_of_not_upper (b : Nat) (h : ¬ (65 ≤ b ∧ b ≤ 90)) :
    lowerByte b = b := if_neg h

theorem check_whitelist_contains_bilibili (x y : List Nat)
    (hx : ∀ b ∈ x, b < 128) (hy : ∀ b ∈ y, b < 128) :
    check_is_in_whitelist (x ++ BILIBILI ++ y) = true := by
  have hascii : ∀ b ∈ x ++ BILIBILI ++ y, b < 128 := by
    intro b hb
    rcases List.mem_append.mp hb with hb1 | hby
    · rcases List.mem_append.mp hb1 with hbx | hbB
      · exact hx b hbx
      · revert hbB
        simp [BILIBILI]
        omega
    · exact hy b hby
  rw [check_is_in_whitelist]
  simp only [utf8Valid_of_ascii _ hascii, if_pos]
  have hmap : (x ++ BILIBILI ++ y).map lowerByte =
      x.map lowerByte ++ (BILIBILI ++ y.map lowerByte) := by
    have hB : BILIBILI.map lowerByte = BILIBILI := by decide
    rw [List.map_append, List.map_append, List.append_assoc, hB]
  rw [hmap]
  have hcont : listContains (x.map lowerByte ++ (BILIBILI ++ y.map lowerByte)) BILIBILI
      = true := by
    rw [listContains]
    rw [show BILIBILI = 98 :: [105, 108, 105, 98, 105, 108, 105] from rfl]
    exact findSubIdx_isSome_mid _ _ _ _
  simp [WHITELIST, hcont]

theorem check_replicate97_false (n : Nat) :
    check_is_in_whitelist (List.replicate n 97) = false := by
  rw [check_is_in_whitelist]
  have hval : utf8Valid (List.replicate n 97) = true :=
    utf8Valid_of_ascii _ (by intro b hb; rw [List.eq_of_mem_replicate hb]; omega)
  simp only [hval, if_pos]
  have hmap : (List.replicate n 97).map lowerByte = List.replicate n 97 := by
    rw [List.map_replicate]
    rfl
  rw [hmap]
  have h1 : listContains (List.replicate n 97) MICROMESSENGER = false := by
    rw [listContains, show MICROMESSENGER = 109 :: [105, 99, 114, 111, 109, 101, 115, 115,
      101, 110, 103, 101, 114, 32, 99, 108, 105, 101, 110, 116] from rfl,
      findSubIdx_replicate_none _ _ _ _ (by omega)]
    rfl
  have h2 : listContains (List.replicate n 97) BILIBILI = false := by
    rw [listContains, show BILIBILI = 98 :: [105, 108, 105, 98, 105, 108, 105] from rfl,
      findSubIdx_replicate_none _ _ _ _ (by omega)]
    rfl
  simp [WHITELIST, h1, h2]

theorem isPrefixOf_of_getD (t buf : List Nat) (hlen : t.length ≤ buf.length)
    (h : ∀ i, i < t.length → buf.getD i 0 = t.getD i 0) : t.isPrefixOf buf = true := by
  rw [isPrefixOf_iff_exists_append]
  have htake : buf.take t.length = t := by
    apply List.ext_getElem
    · simp [List.length_take]
      omega
    · intro i h1 h2
      have hi : i < t.length := h2
      have hgd := h i hi
      have hib : i < buf.length := lt_of_lt_of_le hi hlen
      rw [List.getD_eq_getElem _ _ hib, List.getD_eq_getElem _ _ hi] at hgd
      simpa [List.getElem_take] using hgd
  have hsplit := List.take_append_drop t.length buf
  rw [htake] at hsplit
  exact ⟨buf.drop t.length, hsplit⟩

set_option maxHeartbeats 1000000 in
theorem is_http_request_token_of_true (buf : List Nat) (H : is_http_request buf = true) :
    ∃ t ∈ methodTokens, t.isPrefixOf buf = true := by
  unfold is_http_request at H
  split_ifs at H with h0 h1 h2 h2t h3 h4 h5 h6 h7 h8 h9
  · simp only [Bool.and_eq_true, and_assoc, beq_iff_eq, decide_eq_true_eq] at h1
    obtain ⟨e0, hl, e1, e2⟩ := h1
    refine ⟨[71, 69, 84], by simp [methodTokens], isPrefixOf_of_getD _ _ (by simpa using hl) ?_⟩
    intro i hi
    simp only [List.length_cons, List.length_nil] at hi
    interval_cases i <;> assumption
  · simp only [Bool.and_eq_true, and_assoc, beq_iff_eq, decide_eq_true_eq] at h2 h2t
    obtain ⟨e0, hl3, e1, e2⟩ := h2
    obtain ⟨hl, e3⟩ := h2t
    refine ⟨[80, 79, 83, 84], by simp [methodTokens], isPrefixOf_of_getD _ _ (by simpa using hl) ?_⟩
    intro i hi
    simp only [List.length_cons, List.length_nil] at hi
    interval_cases i <;> assumption
  · simp only [Bool.and_eq_true, and_assoc, beq_iff_eq, decide_eq_true_eq] at h3
    obtain ⟨e0, hl, e1, e2, e3⟩ := h3
    refine ⟨[72, 69, 65, 68], by simp [methodTokens], isPrefixOf_of_getD _ _ (by simpa using hl) ?_⟩
    intro i hi
    simp only [List.length_cons, List.length_nil] at hi
    interval_cases i <;> assumption
  · simp only [Bool.and_eq_true, and_assoc, beq_iff_eq, decide_eq_true_eq] at h4
    obtain ⟨e0, hl, e1, e2, e3, e4, e5⟩ := h4
    refine ⟨[68, 69, 76, 69, 84, 69], by simp [methodTokens], isPrefixOf_of_getD _ _ (by simpa using hl) ?_⟩
    intro i hi
    simp only [List.length_cons, List.length_nil] at hi
    interval_cases i <;> assumption
  · simp only [Bool.and_eq_true, and_assoc, beq_iff_eq, decide_eq_true_eq] at h5
    obtain ⟨e0, hl, e1, e2, e3, e4⟩ := h5
    refine ⟨[84, 82, 65, 67, 69], by simp [methodTokens], isPrefixOf_of_getD _ _ (by simpa using hl) ?_⟩
    intro i hi
    simp only [List.length_cons, List.length_nil] at hi
    interval_cases i <;> assumption
  · simp only [Bool.and_eq_true, and_assoc, beq_iff_eq, decide_eq_true_eq] at h6
    obtain ⟨e0, hl, e1, e2, e3, e4, e5, e6⟩ := h6
    refine ⟨[79, 80, 84, 73, 79, 78, 83], by simp [methodTokens], isPrefixOf_of_getD _ _ (by simpa using hl) ?_⟩
    intro i hi
    simp only [List.length_cons, List.length_nil] at hi
    interval_cases i <;> assumption
  · simp only [Bool.and_eq_true, and_assoc, beq_iff_eq, decide_eq_true_eq] at h7
    obtain ⟨e0, hl, e1, e2, e3, e4, e5, e6⟩ := h7
    refine ⟨[67, 79, 78, 78, 69, 67, 84], by simp [methodTokens], isPrefixOf_of_getD _ _ (by simpa using hl) ?_⟩
    intro i hi
    simp only [List.length_cons, List.length_nil] at hi
    interval_cases i <;> assumption
  · simp only [Bool.and_eq_true, and_assoc, beq_iff_eq, decide_eq_true_eq] at h8
    obtain ⟨e0, hl, e1, e2⟩ := h8
    refine ⟨[80, 85, 84], by simp [methodTokens], isPrefixOf_of_getD _ _ (by simpa using hl) ?_⟩
    intro i hi
    simp only [List.length_cons, List.length_nil] at hi
    interval_cases i <;> assumption
  · simp only [Bool.and_eq_true, and_assoc, beq_iff_eq, decide_eq_true_eq] at h9
    obtain ⟨e0, hl, e1, e2, e3, e4⟩ := h9
    refine ⟨[80, 65, 84, 67, 72], by simp [methodTokens], isPrefixOf_of_getD _ _ (by simpa using hl) ?_⟩
    intro i hi
    simp only [List.length_cons, List.length_nil] at hi
    interval_cases i <;> assumption

set_option maxHeartbeats 1000000 in
theorem http_request_get_token (rest : List Nat) :
    is_http_request ([71, 69, 84] ++ rest) = true := by
  have hA : ¬ (([71, 69, 84] ++ rest).length < 3) := by
    simp only [List.length_append, List.length_cons, List.length_nil]; omega
  have hB0 : 3 ≤ ([71, 69, 84] ++ rest).length := by
    simp only [List.length_append, List.length_cons, List.length_nil]; omega
  simp [is_http_request, hA, hB0]

set_option maxHeartbeats 1000000 in
theorem http_request_post_token (rest : List Nat) :
    is_http_request ([80, 79, 83, 84] ++ rest) = true := by
  have hA : ¬ (([80, 79, 83, 84] ++ rest).length < 3) := by
    simp only [List.length_append, List.length_cons, List.length_nil]; omega
  have hB0 : 3 ≤ ([80, 79, 83, 84] ++ rest).length := by
    simp only [List.length_append, List.length_cons, List.length_nil]; omega
  have hB1 : 4 ≤ ([80, 79, 83, 84] ++ rest).length := by
    simp only [List.length_append, List.length_cons, List.length_nil]; omega
  simp [is_http_request, hA, hB0, hB1]

set_option maxHeartbeats 1000000 in
theorem http_request_head_token (rest : List Nat) :
    is_http_request ([72, 69, 65, 68] ++ rest) = true := by
  have hA : ¬ (([72, 69, 65, 68] ++ rest).length < 3) := by
    simp only [List.length_append, List.length_cons, List.length_nil]; omega
  have hB0 : 4 ≤ ([72, 69, 65, 68] ++ rest).length := by
    simp only [List.length_append, List.length_cons, List.length_nil]; omega
  simp [is_http_request, hA, hB0]

set_option maxHeartbeats 1000000 in
theorem http_request_delete_token (rest : List Nat) :
    is_http_request ([68, 69, 76, 69, 84, 69] ++ rest) = true := by
  have hA : ¬ (([68, 69, 76, 69, 84, 69] ++ rest).length < 3) := by
    simp only [List.length_append, List.length_cons, List.length_nil]; omega
  have hB0 : 6 ≤ ([68, 69, 76, 69, 84, 69] ++ rest).length := by
    simp only [List.length_append, List.length_cons, List.length_nil]; omega
  simp [is_http_request, hA, hB0]

set_option maxHeartbeats 1000000 in
theorem http_request_trace_token (rest : List Nat) :
    is_http_request ([84, 82, 65, 67, 69] ++ rest) = true := by
  have hA : ¬ (([84, 82, 65, 67, 69] ++ rest).length < 3) := by
    simp only [List.length_append, List.length_cons, List.length_nil]; omega
  have hB0 : 5 ≤ ([84, 82, 65, 67, 69] ++ rest).length := by
    simp only [List.length_append, List.length_cons, List.length_nil]; omega
  simp [is_http_request, hA, hB0]

set_option maxHeartbeats 1000000 in
theorem http_request_options_token (rest : List Nat) :
    is_http_request ([79, 80, 84, 73, 79, 78, 83] ++ rest) = true := by
  have hA : ¬ (([79, 80, 84, 73, 79, 78, 83] ++ rest).length < 3) := by
    simp only [List.length_append, List.length_cons, List.length_nil]; omega
  have hB0 : 7 ≤ ([79, 80, 84, 73, 79, 78, 83] ++ rest).length := by
    simp only [List.length_append, List.length_cons, List.length_nil]; omega
  simp [is_http_request, hA, hB0]

set_option maxHeartbeats 1000000 in
theorem http_request_connect_token (rest : List Nat) :
    is_http_request ([67, 79, 78, 78, 69, 67, 84] ++ rest) = true := by
  have hA : ¬ (([67, 79, 78, 78, 69, 67, 84] ++ rest).length < 3) := by
    simp only [List.length_append, List.length_cons, List.length_nil]; omega
  have hB0 : 7 ≤ ([67, 79, 78, 78, 69, 67, 84] ++ rest).length := by
    simp only [List.length_append, List.length_cons, List.length_nil]; omega
  simp [is_http_request, hA, hB0]

set_option maxHeartbeats 1000000 in
theorem http_request_put_token (rest : List Nat) :
    is_http_request ([80, 85, 84] ++ rest) = true := by
  have hA : ¬ (([80, 85, 84] ++ rest).length < 3) := by
    simp only [List.length_append, List.length_cons, List.length_nil]; omega
  have hB0 : 3 ≤ ([80, 85, 84] ++ rest).length := by
    simp only [List.length_append, List.length_cons, List.length_nil]; omega
  simp [is_http_request, hA, hB0]

set_option maxHeartbeats 1000000 in
theorem http_request_patch_token (rest : List Nat) :
    is_http_request ([80, 65, 84, 67, 72] ++ rest) = true := by
  have hA : ¬ (([80, 65, 84, 67, 72] ++ rest).length < 3) := by
    simp only [List.length_append, List.length_cons, List.length_nil]; omega
  have hB0 : 5 ≤ ([80, 65, 84, 67, 72] ++ rest).length := by
    simp only [List.length_append, List.length_cons, List.length_nil]; omega
  simp [is_http_request, hA, hB0]

/-! ## Claim theorems -/

/-- C1: the claim says the full modified buffer is forwarded, with the
bytes before and after the User-Agent span passed on verbatim even when
the replacement length differs.  The code instead writes
buf[..total_read], a byte count computed before the splice: on the
35-byte request whose 3-byte value "abc" is replaced by the 4-byte
"FFFF", the bytes actually written are the first 35 bytes of the spliced
buffer — the final byte of the request (the last LF) is cut off — and
differ from the spliced request the claim promises. -/
theorem C1_total_read_truncates_spliced_buffer :
    writtenHttp c1_first_read c1_second_read [70, 70, 70, 70] =
      [71, 69, 84, 32, 47, 32, 72, 84, 84, 80, 47, 49, 46, 49, 13, 10, 85, 115, 101, 114, 45, 65, 103, 101, 110, 116, 58, 32, 70, 70, 70, 70, 13, 10, 13] ∧
    modify_user_agent (c1_first_read ++ c1_second_read) [70, 70, 70, 70] =
      [71, 69, 84, 32, 47, 32, 72, 84, 84, 80, 47, 49, 46, 49, 13, 10, 85, 115, 101, 114, 45, 65, 103, 101, 110, 116, 58, 32, 70, 70, 70, 70, 13, 10, 13, 10] ∧
    writtenHttp c1_first_read c1_second_read [70, 70, 70, 70] ≠
      modify_user_agent (c1_first_read ++ c1_second_read) [70, 70, 70, 70] := by
  refine ⟨by decide, by decide, by decide⟩

/-- C2: the claim says the rewrite is skipped only on whole-value
(case-insensitive) equality with a whitelist entry, and that a value that
merely CONTAINS a whitelisted string is still rewritten.  The code uses
str::contains: the value "xbilibilix", which contains "bilibili" but
equals neither whitelist entry, is left unmodified — the rewrite the
claim requires does not happen. -/
theorem C2_counterexample_substring_match_skips :
    modify_user_agent
        (UA_TARGET ++ [120, 98, 105, 108, 105, 98, 105, 108, 105, 120] ++ CRLF)
        [70, 70, 70, 70] =
      UA_TARGET ++ [120, 98, 105, 108, 105, 98, 105, 108, 105, 120] ++ CRLF ∧
    ([120, 98, 105, 108, 105, 98, 105, 108, 105, 120] : List Nat) ≠ BILIBILI ∧
    ([120, 98, 105, 108, 105, 98, 105, 108, 105, 120] : List Nat) ≠ MICROMESSENGER := by
  refine ⟨by decide, by decide, by decide⟩

/-- C2 amended: the whitelist test is substring containment (on the
lowercased value), not whole-value equality: any ASCII, CRLF-free value
that contains the whitelist entry "bilibili" anywhere makes the rewriter
return the buffer unchanged. -/
theorem C2_contained_whitelist_entry_skips (x y ua : List Nat)
    (hx : ∀ b ∈ x, b < 128 ∧ b ≠ 13) (hy : ∀ b ∈ y, b < 128 ∧ b ≠ 13) :
    modify_user_agent (UA_TARGET ++ (x ++ BILIBILI ++ y) ++ CRLF) ua =
      UA_TARGET ++ (x ++ BILIBILI ++ y) ++ CRLF := by
  have h13 : ∀ b ∈ x ++ BILIBILI ++ y, b ≠ 13 := by
    intro b hb
    rcases List.mem_append.mp hb with hb1 | hby
    · rcases List.mem_append.mp hb1 with hbx | hbB
      · exact (hx b hbx).2
      · revert hbB
        simp [BILIBILI]
        omega
    · exact (hy b hby).2
  rw [modify_user_agent_canonical _ _ h13]
  rw [check_whitelist_contains_bilibili x y (fun b hb => (hx b hb).1)
    (fun b hb => (hy b hb).1)]
  simp

/-- Witness for C2 at x = y = "x", ua = "F". -/
theorem C2_contained_whitelist_entry_skips_witness :
    (∀ b ∈ ([120] : List Nat), b < 128 ∧ b ≠ 13) ∧
    modify_user_agent (UA_TARGET ++ ([120] ++ BILIBILI ++ [120]) ++ CRLF) [70] =
      UA_TARGET ++ ([120] ++ BILIBILI ++ [120]) ++ CRLF :=
  ⟨by decide, C2_contained_whitelist_entry_skips [120] [120] [70] (by decide) (by decide)⟩

/-- C3: the claim says a User-Agent value longer than 1024 bytes makes the
rewriter skip and return the buffer unchanged.  The code has no size
guard: a 1025-byte value is spliced like any other, so the buffer comes
back changed. -/
theorem C3_counterexample_long_value_rewritten :
    1024 < (List.replicate 1025 97).length ∧
    modify_user_agent (UA_TARGET ++ List.replicate 1025 97 ++ CRLF) [70] ≠
      UA_TARGET ++ List.replicate 1025 97 ++ CRLF := by
  constructor
  · rw [List.length_replicate]
    omega
  · rw [modify_user_agent_canonical _ _
      (by intro b hb; rw [List.eq_of_mem_replicate hb]; omega)]
    rw [check_replicate97_false]
    simp only [Bool.false_eq_true, if_false]
    intro h
    have hlen := congrArg List.length h
    simp only [List.length_append, List.length_replicate, List.length_cons,
      List.length_nil, UA_TARGET, CRLF] at hlen
    omega

/-- C3 amended: there is no size ceiling: for every CRLF-free,
non-whitelisted value v — of any length whatsoever — the value span is
replaced by the configured string. -/
theorem C3_rewrite_has_no_size_guard (v ua : List Nat) (h13 : ∀ b ∈ v, b ≠ 13)
    (hw : check_is_in_whitelist v = false) :
    modify_user_agent (UA_TARGET ++ v ++ CRLF) ua = UA_TARGET ++ ua ++ CRLF := by
  rw [modify_user_agent_canonical _ _ h13, hw]
  simp

/-- Witness for C3 at the 1025-byte value. -/
theorem C3_rewrite_has_no_size_guard_witness :
    (∀ b ∈ List.replicate 1025 97, b ≠ 13) ∧
    check_is_in_whitelist (List.replicate 1025 97) = false ∧
    modify_user_agent (UA_TARGET ++ List.replicate 1025 97 ++ CRLF) [70] =
      UA_TARGET ++ [70] ++ CRLF :=
  ⟨by intro b hb; rw [List.eq_of_mem_replicate hb]; omega,
   check_replicate97_false 1025,
   C3_rewrite_has_no_size_guard (List.replicate 1025 97) [70]
     (by intro b hb; rw [List.eq_of_mem_replicate hb]; omega)
     (check_replicate97_false 1025)⟩

/-- C4: the claim says classification returns false for every buffer not
matching a token-plus-space prefix.  "GETX" matches no token followed by
a space, yet the code classifies it as HTTP: the trailing space is never
checked. -/
theorem C4_counterexample_token_without_space :
    is_http_request [71, 69, 84, 88] = true ∧
    (methodTokens.all fun t => !((t ++ [32]).isPrefixOf [71, 69, 84, 88])) = true := by
  refine ⟨by decide, by decide⟩

/-- C4 amended: classification returns true exactly when the buffer
begins with one of the nine method tokens, with no requirement on the
following byte; in particular every token-plus-space buffer is accepted,
and every buffer shorter than 3 bytes is rejected (no token is that
short).  The function is total on byte lists and leaves its input
untouched. -/
theorem C4_classification_iff_method_token (buf : List Nat) :
    is_http_request buf = true ↔ ∃ t ∈ methodTokens, t.isPrefixOf buf = true := by
  constructor
  · exact is_http_request_token_of_true buf
  · rintro ⟨t, ht, hpre⟩
    rw [isPrefixOf_iff_exists_append] at hpre
    obtain ⟨rest, rfl⟩ := hpre
    simp only [methodTokens, List.mem_cons, List.not_mem_nil, or_false] at ht
    rcases ht with rfl | rfl | rfl | rfl | rfl | rfl | rfl | rfl | rfl
    · exact http_request_get_token rest
    · exact http_request_post_token rest
    · exact http_request_head_token rest
    · exact http_request_delete_token rest
    · exact http_request_trace_token rest
    · exact http_request_options_token rest
    · exact http_request_connect_token rest
    · exact http_request_put_token rest
    · exact http_request_patch_token rest

/-- C5: the claim says a timed-out connect is answered with TtlExpired.
The code wraps no timeout around TcpStream::connect and maps every
connect error — a timeout included — to HostUnreachable. -/
theorem C5_counterexample_timeout_gets_hostUnreachable :
    connect_phase (.error .timedOut) = (Reply.hostUnreachable, some IoErrorKind.timedOut) ∧
    Reply.hostUnreachable ≠ Reply.ttlExpired := by
  refine ⟨rfl, by decide⟩

/-- C5 amended: the outbound connect has no explicit timeout; every
connect failure, whatever its kind, is answered with HostUnreachable and
the underlying I/O error is surfaced, and no outcome of the connect phase
ever produces TtlExpired. -/
theorem C5_every_connect_error_hostUnreachable (e : IoErrorKind) :
    connect_phase (.error e) = (Reply.hostUnreachable, some e) ∧
    ∀ o : Except IoErrorKind Unit, (connect_phase o).1 ≠ Reply.ttlExpired := by
  refine ⟨rfl, ?_⟩
  intro o
  cases o <;> simp [connect_phase]

/-- C6: the claim says a destination cache is consulted before sniffing
and a hit (for a destination whose earlier connection was classified
non-HTTP) skips sniffing entirely.  The code has no such cache: two
consecutive connections to "example.com:443" whose first bytes [5, 1, 0]
are non-HTTP both produce a sniff action — the second is not skipped. -/
theorem C6_counterexample_repeat_destination_sniffs_again :
    processConnections [70]
        [(EXAMPLE_DEST, [5, 1, 0], []), (EXAMPLE_DEST, [5, 1, 0], [])] =
      [[ConnAction.sniff false, ConnAction.writeTarget [5, 1, 0], ConnAction.flushTarget,
        ConnAction.copyBidirectional],
       [ConnAction.sniff false, ConnAction.writeTarget [5, 1, 0], ConnAction.flushTarget,
        ConnAction.copyBidirectional]] := by
  decide

/-- C6 amended: no destination cache exists.  Every Connect whose first
read is nonempty sniffs its initial bytes, and the whole data phase is
independent of the destination — so no per-destination state (and hence
no TTL) can influence it. -/
theorem C6_every_connection_sniffs (dest dest2 r1 r2 ua : List Nat) (h : r1 ≠ []) :
    ConnAction.sniff (is_http_request r1) ∈ (handle_tcp_connect_data dest r1 r2 ua).1 ∧
    handle_tcp_connect_data dest r1 r2 ua = handle_tcp_connect_data dest2 r1 r2 ua := by
  have hlen : ¬ (r1.length = 0) := by simpa [List.length_eq_zero] using h
  constructor
  · rw [handle_tcp_connect_data, if_neg hlen]
    exact List.mem_cons_self _ _
  · rfl

/-- Witness for C6 at the non-HTTP first read [5, 1, 0]. -/
theorem C6_every_connection_sniffs_witness :
    ([5, 1, 0] : List Nat) ≠ [] ∧
    (ConnAction.sniff (is_http_request [5, 1, 0]) ∈
        (handle_tcp_connect_data EXAMPLE_DEST [5, 1, 0] [] [70]).1 ∧
      handle_tcp_connect_data EXAMPLE_DEST [5, 1, 0] [] [70] =
        handle_tcp_connect_data [] [5, 1, 0] [] [70]) :=
  ⟨by decide, C6_every_connection_sniffs EXAMPLE_DEST [] [5, 1, 0] [] [70] (by decide)⟩

/-- C7: the claim says re-encapsulation produces the framing
[RSV(2)][FRAG(1)][ATYP(1)][ADDR][PORT][DATA] — a four-byte prefix with
ATYP at offset 3.  The code builds a three-byte header and then assigns
packet[2] = ATYP, overwriting the third header byte instead of appending
a fourth: for source 9.9.9.9:80 with payload [171] it emits
[0, 0, 1, 9, 9, 9, 9, 0, 80, 171], one byte shorter than the prescribed
framing, with ATYP at offset 2 — and the parser of the same file rejects the
packet it built. -/
theorem C7_encapsulation_drops_header_byte :
    encapsulate_socks5_udp_packet ⟨IpAddr.v4 9 9 9 9, 80⟩ [171] =
      [0, 0, 1, 9, 9, 9, 9, 0, 80, 171] ∧
    spec_udp_reply_packet ⟨IpAddr.v4 9 9 9 9, 80⟩ [171] =
      [0, 0, 0, 1, 9, 9, 9, 9, 0, 80, 171] ∧
    encapsulate_socks5_udp_packet ⟨IpAddr.v4 9 9 9 9, 80⟩ [171] ≠
      spec_udp_reply_packet ⟨IpAddr.v4 9 9 9 9, 80⟩ [171] ∧
    parse_socks5_udp_packet (encapsulate_socks5_udp_packet ⟨IpAddr.v4 9 9 9 9, 80⟩ [171]) =
      none := by
  refine ⟨by decide, by decide, by decide, by decide⟩

/-- C8: the claim says a well-formed domain-typed packet yields the
decoded target address.  The code never looks at the domain bytes: two
packets naming different domains ("aa" and "bb") parse to the same
target, the unspecified address 0.0.0.0 with the parsed port. -/
theorem C8_counterexample_domain_bytes_ignored :
    parse_socks5_udp_packet [0, 0, 0, 3, 2, 97, 97, 0, 9, 99] =
      some (⟨IpAddr.v4 0 0 0 0, 9⟩, [99]) ∧
    parse_socks5_udp_packet [0, 0, 0, 3, 2, 98, 98, 0, 9, 99] =
      some (⟨IpAddr.v4 0 0 0 0, 9⟩, [99]) ∧
    ([97, 97] : List Nat) ≠ [98, 98] := by
  refine ⟨by decide, by decide, by decide⟩

/-- C8 amended: the parser is a total function (never panics); packets
shorter than 10 bytes and packets with an unsupported address type are
rejected with none; a well-formed IPv4-typed packet decodes to its
embedded address, port and payload; and a well-formed domain-typed packet
of total length at least 10 decodes to the unspecified address 0.0.0.0
with the parsed port — the domain bytes themselves are ignored — and its
payload, which the relay loop then forwards. -/
theorem C8_parse_rejects_or_decodes (p : List Nat) (a b c d port : Nat)
    (domain payload payload2 : List Nat) (hport : port < 65536)
    (hdom : domain.length ≤ 255)
    (hlen : 10 ≤ (mkDomainUdpPacket domain port payload2).length) :
    (p.length < 10 → parse_socks5_udp_packet p = none) ∧
    (p.getD 3 0 = 4 → parse_socks5_udp_packet p = none) ∧
    parse_socks5_udp_packet (mkV4UdpPacket a b c d port payload) =
      some (⟨IpAddr.v4 a b c d, port⟩, payload) ∧
    parse_socks5_udp_packet (mkDomainUdpPacket domain port payload2) =
      some (⟨IpAddr.v4 0 0 0 0, port⟩, payload2) := by
  refine ⟨?_, ?_, ?_, ?_⟩
  · intro hp
    rw [parse_socks5_udp_packet, if_pos (Or.inl hp)]
  · intro h4
    by_cases hg : p.length < 10 ∨ p.getD 1 0 ≠ 0
    · rw [parse_socks5_udp_packet, if_pos hg]
    · rw [parse_socks5_udp_packet, if_neg hg, h4]
  · simp only [mkV4UdpPacket, List.cons_append, List.nil_append]
    simp [parse_socks5_udp_packet, Nat.div_add_mod]
    omega
  · have hsplit : mkDomainUdpPacket domain port payload2 =
        [0, 0, 0, 3, domain.length] ++
          (domain ++ ([port / 256, port % 256] ++ payload2)) := by
      rw [mkDomainUdpPacket, List.append_assoc, List.append_assoc]
    rw [hsplit] at hlen
    rw [hsplit]
    have hL : ([0, 0, 0, 3, domain.length] ++
        (domain ++ ([port / 256, port % 256] ++ payload2))).length =
        7 + domain.length + payload2.length := by
      simp only [List.length_append, List.length_cons, List.length_nil]
      omega
    have e1 : ([0, 0, 0, 3, domain.length] ++
        (domain ++ ([port / 256, port % 256] ++ payload2))).getD 1 0 = 0 :=
      List.getD_append _ _ _ _ (by simp)
    have e3 : ([0, 0, 0, 3, domain.length] ++
        (domain ++ ([port / 256, port % 256] ++ payload2))).getD 3 0 = 3 :=
      List.getD_append _ _ _ _ (by simp)
    have e4 : ([0, 0, 0, 3, domain.length] ++
        (domain ++ ([port / 256, port % 256] ++ payload2))).getD 4 0 = domain.length :=
      List.getD_append _ _ _ _ (by simp)
    have e8 : ([0, 0, 0, 3, domain.length] ++
        (domain ++ ([port / 256, port % 256] ++ payload2))).getD (5 + domain.length) 0 =
        port / 256 := by
      rw [List.getD_append_right [0, 0, 0, 3, domain.length]
        (domain ++ ([port / 256, port % 256] ++ payload2)) 0 (5 + domain.length) (by simp)]
      rw [show 5 + domain.length - ([0, 0, 0, 3, domain.length] : List Nat).length =
        domain.length from by simp]
      rw [List.getD_append_right domain ([port / 256, port % 256] ++ payload2) 0
        domain.length (le_refl _), Nat.sub_self]
      exact List.getD_append _ _ _ _ (by simp)
    have e9 : ([0, 0, 0, 3, domain.length] ++
        (domain ++ ([port / 256, port % 256] ++ payload2))).getD (6 + domain.length) 0 =
        port % 256 := by
      rw [List.getD_append_right [0, 0, 0, 3, domain.length]
        (domain ++ ([port / 256, port % 256] ++ payload2)) 0 (6 + domain.length)
        (by simp; omega)]
      rw [show 6 + domain.length - ([0, 0, 0, 3, domain.length] : List Nat).length =
        domain.length + 1 from by simp; omega]
      rw [List.getD_append_right domain ([port / 256, port % 256] ++ payload2) 0
        (domain.length + 1) (by omega)]
      rw [show domain.length + 1 - domain.length = 1 from by omega]
      exact List.getD_append _ _ _ _ (by simp)
    have ed : ([0, 0, 0, 3, domain.length] ++
        (domain ++ ([port / 256, port % 256] ++ payload2))).drop
          (5 + domain.length + 2) = payload2 := by
      rw [show 5 + domain.length + 2 =
        ([0, 0, 0, 3, domain.length] : List Nat).length + (domain.length + 2) from by
          simp only [List.length_cons, List.length_nil]; omega]
      rw [List.drop_append (domain.length + 2)]
      rw [List.drop_append 2]
      rw [show (2 : Nat) = ([port / 256, port % 256] : List Nat).length from rfl]
      rw [List.drop_left]
    have hg : ¬ (([0, 0, 0, 3, domain.length] ++
        (domain ++ ([port / 256, port % 256] ++ payload2))).length < 10 ∨
        ([0, 0, 0, 3, domain.length] ++
          (domain ++ ([port / 256, port % 256] ++ payload2))).getD 1 0 ≠ 0) := by
      push_neg
      exact ⟨by omega, by rw [e1]⟩
    rw [parse_socks5_udp_packet, if_neg hg, e3]
    simp only [e4]
    rw [if_neg (by rw [hL]; omega)]
    rw [e8, e9, ed]
    rw [show port / 256 * 256 + port % 256 = port from by omega]

/-- Witness for C8: p = [0] (too short), an IPv6-typed packet, the IPv4
packet for 9.9.9.9:2570 with payload [1], and the domain packet for "a",
port 2570, payload [5, 6]. -/
theorem C8_parse_rejects_or_decodes_witness :
    2570 < 65536 ∧ ([97] : List Nat).length ≤ 255 ∧
    10 ≤ (mkDomainUdpPacket [97] 2570 [5, 6]).length ∧
    (([0] : List Nat).length < 10 → parse_socks5_udp_packet [0] = none) ∧
    (([0, 0, 0, 4, 0, 0, 0, 0, 0, 0] : List Nat).getD 3 0 = 4 →
      parse_socks5_udp_packet [0, 0, 0, 4, 0, 0, 0, 0, 0, 0] = none) ∧
    parse_socks5_udp_packet (mkV4UdpPacket 9 9 9 9 2570 [1]) =
      some (⟨IpAddr.v4 9 9 9 9, 2570⟩, [1]) ∧
    parse_socks5_udp_packet (mkDomainUdpPacket [97] 2570 [5, 6]) =
      some (⟨IpAddr.v4 0 0 0 0, 2570⟩, [5, 6]) := by
  refine ⟨by decide, by decide, by decide, ?_, ?_, ?_, ?_⟩
  · exact (C8_parse_rejects_or_decodes [0] 9 9 9 9 2570 [97] [1] [5, 6] (by decide)
      (by decide) (by decide)).1
  · exact (C8_parse_rejects_or_decodes [0, 0, 0, 4, 0, 0, 0, 0, 0, 0] 9 9 9 9 2570 [97]
      [1] [5, 6] (by decide) (by decide) (by decide)).2.1
  · exact (C8_parse_rejects_or_decodes [0] 9 9 9 9 2570 [97] [1] [5, 6] (by decide)
      (by decide) (by decide)).2.2.1
  · exact (C8_parse_rejects_or_decodes [0] 9 9 9 9 2570 [97] [1] [5, 6] (by decide)
      (by decide) (by decide)).2.2.2

/-- C9: the claim says a receive error terminates the relay loop and
nothing is processed after it.  In the code the Err arm of recv_from only
logs: with an error event followed by a well-formed datagram for
8.8.8.8:53, the loop logs the error and then still forwards the datagram
and sends the re-encapsulated reply. -/
theorem C9_counterexample_loop_continues_after_error :
    handle_udp_traffic ⟨IpAddr.v4 127 0 0 1, 1080⟩
        [UdpEvent.recvErr,
         UdpEvent.recvOk ⟨IpAddr.v4 1 2 3 4, 7⟩ [0, 0, 0, 1, 8, 8, 8, 8, 0, 53, 99]] =
      [UdpAction.logError,
       UdpAction.sendTo ⟨IpAddr.v4 8 8 8 8, 53⟩ [99],
       UdpAction.sendToClient ⟨IpAddr.v4 127 0 0 1, 1080⟩ [0, 0, 1, 1, 2, 3, 4, 0, 7, 99]] := by
  decide

/-- C9 amended: the relay loop never terminates on a receive error: the
error contributes one log action and the loop then handles the remaining
events exactly as it would have without the error.  (The loop is a
detached background task; the TCP control connection was already closed
right after the associate reply, so its teardown does not stop the loop
either.) -/
theorem C9_recv_error_logged_and_loop_continues (c : SockAddr) (rest : List UdpEvent) :
    handle_udp_traffic c (UdpEvent.recvErr :: rest) =
      UdpAction.logError :: handle_udp_traffic c rest := rfl

/-- C10: a first read of zero bytes (client EOF right after the Connect
reply) makes the handler shut down the client stream and the target
stream, in that order, and return Ok — with no bytes written to the
target and no sniffing performed. -/
theorem C10_client_eof_clean_shutdown (dest r2 ua : List Nat) :
    handle_tcp_connect_data dest [] r2 ua =
      ([ConnAction.shutdownClient, ConnAction.shutdownTarget], true) ∧
    (∀ bs, ConnAction.writeTarget bs ∉ (handle_tcp_connect_data dest [] r2 ua).1) ∧
    (∀ hb, ConnAction.sniff hb ∉ (handle_tcp_connect_data dest [] r2 ua).1) := by
  refine ⟨rfl, ?_, ?_⟩ <;> intro z <;> simp [handle_tcp_connect_data]

end UA4F
